import Mathlib

/-!
Shallow embedding of `src/icon/mat.py` (repository KurtBoehm/Illuminata).

The source is three pure functions:

* `mat(msg)`: `l = [float(v) for v in msg.split()]; return np.array([l[::2], l[1::2]])`
* `rotate_mat(angle)`: degrees → radians, builds `np.eye(3,3)` and overwrites the
  top-left 2×2 block with `((c, -s), (s, c))`;
* `translate_mat(x, y)`: builds `np.eye(3,3)` and sets `[0,2] = x`, `[1,2] = y`.

Modelling decisions:

* Python `str.split()` (no argument) splits on runs of whitespace and never yields
  empty tokens; it is embedded as `pySplitAux` over the character list of the string
  (whitespace modelled by `Char.isWhitespace`, covering space, tab, CR, LF).
* Python `float(v)` raises `ValueError` on an unparseable token; the spec calls this
  single abstract error kind `ParseError`, and so does the embedding.  The conversion
  is embedded as `pyFloat`, a faithful implementation of CPython's `float()` string
  grammar: optional surrounding whitespace, optional sign, then `inf`/`infinity`/`nan`
  (case-insensitive) or a decimal mantissa (digits with optional single underscores
  between digits, optional point) with an optional exponent part.  Values are kept
  exact: finite results are rationals (`PFloat.finite`), infinities and NaN are the
  symbolic `PFloat.inf`, `PFloat.neginf`, `PFloat.nan`; the final rounding of the
  exact decimal value to an IEEE-754 double is abstracted away (every numeric value
  appearing in the claims is exactly representable, so nothing here depends on it).
* `l[::2]` and `l[1::2]` are embedded as `sliceEvens` and `sliceOdds`.  `np.array`
  applied to the two rows stacks them into a 2×N float matrix exactly when they have
  equal length; `mat` is therefore embedded as returning the pair of rows.
* The matrix builders are embedded over `ℝ` with `Matrix (Fin 3) (Fin 3) ℝ`;
  `np.radians`, `np.cos`, `np.sin` become `radians`, `Real.cos`, `Real.sin`, and the
  in-place block/entry assignments become the explicit functional updates
  `rotate_mat` and `translate_mat` perform below.
-/

namespace Illuminata

/-- Model of the single error kind of the repository: the error raised by `float(v)`
on an unparseable token (a `ValueError` in CPython; the spec names it `ParseError`). -/
inductive ParseError where
  | parseError
deriving DecidableEq, Repr

/-- Value of a successful Python `float()` conversion, kept exact: a finite rational,
one of the two infinities, or NaN. -/
inductive PFloat where
  | finite (q : ℚ)
  | inf
  | neginf
  | nan
deriving DecidableEq, Repr

/-- ASCII lower-casing of one character, as used by the case-insensitive keyword
match in `float()` for `inf` / `infinity` / `nan`. -/
def lowerChar (c : Char) : Char :=
  if 'A' ≤ c ∧ c ≤ 'Z' then Char.ofNat (c.toNat + 32) else c

/-- Strip leading and trailing whitespace, as `float()` does on its argument. -/
def stripWs (l : List Char) : List Char :=
  ((l.dropWhile Char.isWhitespace).reverse.dropWhile Char.isWhitespace).reverse

/-- Consume one optional sign; returns `(isNegative, rest)`. -/
def parseSign : List Char → Bool × List Char
  | '+' :: cs => (false, cs)
  | '-' :: cs => (true, cs)
  | cs => (false, cs)

/-- Continue a digit run: further digits, with single underscores allowed between
digits (Python's `digitpart ::= digit (["_"] digit)*`). -/
def digitsCont : List Char → List Char × List Char
  | '_' :: c :: cs =>
    if c.isDigit then
      let (ds, r) := digitsCont cs
      (c :: ds, r)
    else ([], '_' :: c :: cs)
  | c :: cs =>
    if c.isDigit then
      let (ds, r) := digitsCont cs
      (c :: ds, r)
    else ([], c :: cs)
  | [] => ([], [])

/-- Consume a maximal `digitpart` (possibly empty): returns the digits (underscores
removed) and the rest. -/
def tryDigits : List Char → List Char × List Char
  | c :: cs =>
    if c.isDigit then
      let (ds, r) := digitsCont cs
      (c :: ds, r)
    else ([], c :: cs)
  | [] => ([], [])

/-- Numeric value of a digit string. -/
def digsToNat (ds : List Char) : ℕ :=
  ds.foldl (fun n c => 10 * n + (c.toNat - 48)) 0

/-- Parse the mantissa of a Python float literal:
`[digitpart] "." digitpart | digitpart ["."]` (at least one digit overall). -/
def parseMantissa (cs : List Char) : Option (ℚ × List Char) :=
  let (ip, r1) := tryDigits cs
  match r1 with
  | '.' :: r2 =>
    let (fp, r3) := tryDigits r2
    if ip.isEmpty ∧ fp.isEmpty then none
    else some ((digsToNat ip : ℚ) + (digsToNat fp : ℚ) / (10 : ℚ) ^ fp.length, r3)
  | _ => if ip.isEmpty then none else some ((digsToNat ip : ℚ), r1)

/-- Parse what follows the `e`/`E` of an exponent part: optional sign and a required
`digitpart`, which must end the token. -/
def parseExpPart (m : ℚ) (r2 : List Char) : Option ℚ :=
  let (eneg, r3) := parseSign r2
  let (ed, r4) := tryDigits r3
  if ed.isEmpty ∨ ¬r4.isEmpty then none
  else some (m * (10 : ℚ) ^ (if eneg then -(digsToNat ed : ℤ) else (digsToNat ed : ℤ)))

/-- Parse a full float literal body (after the sign): mantissa and optional exponent,
consuming the whole token. -/
def parseFloatBody (cs : List Char) : Option ℚ :=
  match parseMantissa cs with
  | none => none
  | some (m, r1) =>
    match r1 with
    | [] => some m
    | 'e' :: r2 => parseExpPart m r2
    | 'E' :: r2 => parseExpPart m r2
    | _ => none

/-- Python `float()` on a character list: strip whitespace, take an optional sign,
then either a case-insensitive `inf` / `infinity` / `nan` keyword or a decimal
literal.  `none` models the raised `ValueError`. -/
def pyFloatChars (cs0 : List Char) : Option PFloat :=
  let cs1 := stripWs cs0
  let (neg, cs2) := parseSign cs1
  let low := cs2.map lowerChar
  if low = ['i', 'n', 'f'] ∨ low = ['i', 'n', 'f', 'i', 'n', 'i', 't', 'y'] then
    some (if neg then PFloat.neginf else PFloat.inf)
  else if low = ['n', 'a', 'n'] then
    some PFloat.nan
  else
    match parseFloatBody cs2 with
    | some q => some (PFloat.finite (if neg then -q else q))
    | none => none

/-- Python `float(v)` on a string token. -/
def pyFloat (v : String) : Option PFloat :=
  pyFloatChars v.data

/-- Worker for `str.split()`: walk the characters accumulating the current token
(reversed); whitespace ends a token, runs of whitespace yield nothing. -/
def pySplitAux : List Char → List Char → List (List Char)
  | [], acc => if acc.isEmpty then [] else [acc.reverse]
  | c :: cs, acc =>
    if c.isWhitespace then
      if acc.isEmpty then pySplitAux cs [] else acc.reverse :: pySplitAux cs []
    else pySplitAux cs (c :: acc)

/-- Python `msg.split()`: whitespace-separated tokens, no empty tokens. -/
def tokens (msg : String) : List String :=
  (pySplitAux msg.data []).map String.mk

/-- The list comprehension `[float(v) for v in ...]`: convert each token in order,
propagating the first conversion error. -/
def parseAll : List String → Except ParseError (List PFloat)
  | [] => Except.ok []
  | v :: vs =>
    match pyFloat v with
    | none => Except.error ParseError.parseError
    | some x =>
      match parseAll vs with
      | Except.error e => Except.error e
      | Except.ok xs => Except.ok (x :: xs)

/-- Python slice `l[::2]`: elements at even indices 0, 2, 4, …. -/
def sliceEvens {α : Type} : List α → List α
  | [] => []
  | [x] => [x]
  | x :: _ :: xs => x :: sliceEvens xs

/-- Python slice `l[1::2]`: elements at odd indices 1, 3, 5, …. -/
def sliceOdds {α : Type} (l : List α) : List α :=
  sliceEvens l.tail

/-- The source's `mat(msg)`: split, convert every token with `float`, and return the
two rows `l[::2]` and `l[1::2]` (which `np.array` stacks into a 2×N matrix exactly
when their lengths agree). -/
def mat (msg : String) : Except ParseError (List PFloat × List PFloat) :=
  match parseAll (tokens msg) with
  | Except.error e => Except.error e
  | Except.ok l => Except.ok (sliceEvens l, sliceOdds l)

/-- Model of `np.radians`: degrees to radians. -/
noncomputable def radians (a : ℝ) : ℝ :=
  a * Real.pi / 180

/-- Model of `np.eye(n, n)`: the n×n identity matrix. -/
def eye (n : ℕ) : Matrix (Fin n) (Fin n) ℝ :=
  fun i j => if i = j then 1 else 0

/-- The source's `rotate_mat(angle)`: degrees to radians, cosine and sine, identity
matrix with its top-left 2×2 block overwritten by `((c, -s), (s, c))`. -/
noncomputable def rotate_mat (angle : ℝ) : Matrix (Fin 3) (Fin 3) ℝ :=
  let theta := radians angle
  let c := Real.cos theta
  let s := Real.sin theta
  let block : Matrix (Fin 2) (Fin 2) ℝ := !![c, -s; s, c]
  fun i j =>
    if h : i.val < 2 ∧ j.val < 2 then block ⟨i.val, h.1⟩ ⟨j.val, h.2⟩
    else eye 3 i j

/-- The source's `translate_mat(x, y)`: identity matrix with entry `[0,2]` set to `x`
and entry `[1,2]` set to `y`. -/
def translate_mat (x y : ℝ) : Matrix (Fin 3) (Fin 3) ℝ :=
  fun i j =>
    if i.val = 0 ∧ j.val = 2 then x
    else if i.val = 1 ∧ j.val = 2 then y
    else eye 3 i j

/-! Helper lemmas shared by the claim theorems below. -/

/-- Entries of `l[::2]`: position `i` of the even slice is position `2 * i` of `l`. -/
theorem sliceEvens_getElem {α : Type} : ∀ (l : List α) (i : ℕ), (sliceEvens l)[i]? = l[2 * i]?
  | [], i => by simp [sliceEvens]
  | [x], 0 => by simp [sliceEvens]
  | [x], (i + 1) => by simp [sliceEvens, Nat.mul_succ]
  | x :: y :: xs, 0 => by simp [sliceEvens]
  | x :: y :: xs, (i + 1) => by
    have ih := sliceEvens_getElem xs i
    simp [sliceEvens, Nat.mul_succ, ih]

/-- Length of `l[::2]` is the number of even indices below `l.length`, i.e. ⌈n/2⌉. -/
theorem sliceEvens_length {α : Type} : ∀ l : List α, (sliceEvens l).length = (l.length + 1) / 2
  | [] => by simp [sliceEvens]
  | [x] => by simp [sliceEvens]
  | x :: y :: xs => by
    have ih := sliceEvens_length xs
    simp [sliceEvens, ih]
    omega

/-- Entries of `l[1::2]`: position `i` of the odd slice is position `2 * i + 1` of `l`. -/
theorem sliceOdds_getElem {α : Type} (l : List α) (i : ℕ) : (sliceOdds l)[i]? = l[2 * i + 1]? := by
  cases l with
  | nil => simp [sliceOdds, sliceEvens]
  | cons x xs => simp [sliceOdds, sliceEvens_getElem xs i]

/-- Length of `l[1::2]` is ⌊n/2⌋. -/
theorem sliceOdds_length {α : Type} (l : List α) : (sliceOdds l).length = l.length / 2 := by
  cases l with
  | nil => simp [sliceOdds, sliceEvens]
  | cons x xs => simp [sliceOdds, sliceEvens_length xs]

/-- The token conversion loop fails exactly when some token is not a valid float. -/
theorem parseAll_error_iff (ts : List String) :
    parseAll ts = Except.error ParseError.parseError ↔ ∃ v ∈ ts, pyFloat v = none := by
  induction ts with
  | nil => simp [parseAll]
  | cons v vs ih =>
    cases hv : pyFloat v with
    | none => simp [parseAll, hv]
    | some x =>
      cases hp : parseAll vs with
      | error e =>
        cases e
        rw [hp] at ih
        simp only [parseAll, hv, hp]
        have hex := ih.mp rfl
        constructor
        · intro _
          obtain ⟨w, hw, hwn⟩ := hex
          exact ⟨w, List.mem_cons_of_mem v hw, hwn⟩
        · intro _
          trivial
      | ok xs =>
        simp only [parseAll, hv, hp]
        rw [hp] at ih
        constructor
        · intro h
          exact absurd h (by simp)
        · rintro ⟨w, hw, hwn⟩
          rcases List.mem_cons.mp hw with hwv | hwvs
          · rw [hwv, hv] at hwn
            exact absurd hwn (by simp)
          · exact absurd (ih.mpr ⟨w, hwvs, hwn⟩) (by simp)

/-- An error escapes `mat` exactly when some whitespace-delimited token fails `float()`. -/
theorem mat_error_characterization (s : String) :
    (∃ e, mat s = Except.error e) ↔ ∃ v ∈ tokens s, pyFloat v = none := by
  cases hp : parseAll (tokens s) with
  | error e =>
    cases e
    have hex := (parseAll_error_iff (tokens s)).mp hp
    simp only [mat, hp]
    exact ⟨fun _ => hex, fun _ => ⟨ParseError.parseError, trivial⟩⟩
  | ok l =>
    simp only [mat, hp]
    constructor
    · rintro ⟨e, he⟩
      exact absurd he (by simp)
    · intro h
      have hcontra := (parseAll_error_iff (tokens s)).mpr h
      rw [hp] at hcontra
      exact absurd hcontra (by simp)

/-- When every token converts, `mat` returns exactly the two slices of the value list. -/
theorem mat_ok_rows (s : String) (l : List PFloat) (h : parseAll (tokens s) = Except.ok l) :
    mat s = Except.ok (sliceEvens l, sliceOdds l) := by
  simp [mat, h]

/-- Closed form of `rotate_mat`: the block assignment written out entry by entry. -/
theorem rotate_mat_eq (a : ℝ) :
    rotate_mat a = !![Real.cos (radians a), -Real.sin (radians a), 0;
                      Real.sin (radians a), Real.cos (radians a), 0;
                      (0 : ℝ), 0, 1] := by
  funext i j
  fin_cases i <;> fin_cases j <;> simp [rotate_mat, eye]

/-- Closed form of `translate_mat`: the two entry assignments written out. -/
theorem translate_mat_eq (x y : ℝ) :
    translate_mat x y = !![1, 0, x; 0, 1, y; (0 : ℝ), 0, 1] := by
  funext i j
  fin_cases i <;> fin_cases j <;> rfl

/-! Claim theorems. -/

/-- Claim C1, counterexample: at the odd-length input "1 2 3" the source's `mat` does
NOT drop the final token — it lands in row 0, which therefore has length 2, not
⌊3/2⌋ = 1, so the result is not a 2×⌊n/2⌋ matrix and the final token is not excluded
from both rows. -/
theorem mat_odd_token_not_dropped :
    mat "1 2 3" = Except.ok ([PFloat.finite 1, PFloat.finite 3], [PFloat.finite 2]) ∧
    ([PFloat.finite 1, PFloat.finite 3] : List PFloat).length ≠ 3 / 2 :=
  ⟨rfl, by decide⟩

/-- Claim C1, amended: for every string whose tokens all convert, giving the value
list `l` with `n` entries, `mat` returns row 0 = `l[::2]` (the even-indexed values,
⌈n/2⌉ of them) and row 1 = `l[1::2]` (the odd-indexed values, ⌊n/2⌋ of them), each in
input order; the rows have equal length n/2 exactly when `n` is even, and for odd `n`
the final token stays as the last element of row 0 rather than being dropped. -/
theorem mat_rows_characterization (s : String) (l : List PFloat)
    (h : parseAll (tokens s) = Except.ok l) :
    mat s = Except.ok (sliceEvens l, sliceOdds l) ∧
    (sliceEvens l).length = (l.length + 1) / 2 ∧
    (sliceOdds l).length = l.length / 2 ∧
    (∀ i : ℕ, (sliceEvens l)[i]? = l[2 * i]?) ∧
    (∀ i : ℕ, (sliceOdds l)[i]? = l[2 * i + 1]?) :=
  ⟨mat_ok_rows s l h, sliceEvens_length l, sliceOdds_length l,
    fun i => sliceEvens_getElem l i, fun i => sliceOdds_getElem l i⟩

/-- Witness for the amended claim C1 at the concrete input "1 2". -/
theorem mat_rows_characterization_witness :
    parseAll (tokens "1 2") = Except.ok [PFloat.finite 1, PFloat.finite 2] ∧
    mat "1 2" = Except.ok (sliceEvens [PFloat.finite 1, PFloat.finite 2],
      sliceOdds [PFloat.finite 1, PFloat.finite 2]) :=
  ⟨rfl, (mat_rows_characterization "1 2" [PFloat.finite 1, PFloat.finite 2] rfl).1⟩

/-- Claim C2: `mat s` raises `ParseError` if and only if some whitespace-delimited
token of `s` does not convert to a float; `ParseError` is the only error kind (the
error type has a single value), and in particular `mat "abc"` raises it. -/
theorem mat_parse_error_iff :
    (∀ s : String, (∃ e, mat s = Except.error e) ↔ ∃ v ∈ tokens s, pyFloat v = none) ∧
    (∀ e : ParseError, e = ParseError.parseError) ∧
    mat "abc" = Except.error ParseError.parseError :=
  ⟨mat_error_characterization, fun e => by cases e; rfl, rfl⟩

/-- Claim C3: on the empty string `mat` does not fail and returns the 2×0 matrix,
both rows empty. -/
theorem mat_empty_string :
    mat "" = Except.ok ([], []) :=
  rfl

/-- Claim C4: for every angle `a` in degrees, `rotate_mat a` converts to radians and
is the 3×3 matrix with top-left 2×2 block `[[c, -s], [s, c]]` for `c = cos (radians a)`
and `s = sin (radians a)`, zeros at entries `[0,2]` and `[1,2]`, and bottom row
`[0, 0, 1]`. -/
theorem rotate_mat_entries (a : ℝ) :
    radians a = a * Real.pi / 180 ∧
    rotate_mat a = !![Real.cos (radians a), -Real.sin (radians a), 0;
                      Real.sin (radians a), Real.cos (radians a), 0;
                      (0 : ℝ), 0, 1] :=
  ⟨rfl, rotate_mat_eq a⟩

/-- Claim C5: for all offsets `x`, `y`, `translate_mat x y` is the identity except
entry `[0,2] = x` and entry `[1,2] = y`; in particular `translate_mat 5 (-3)` is
`[[1,0,5],[0,1,-3],[0,0,1]]` exactly. -/
theorem translate_mat_entries :
    (∀ x y : ℝ, translate_mat x y = !![1, 0, x; 0, 1, y; (0 : ℝ), 0, 1]) ∧
    translate_mat 5 (-3) = !![1, 0, 5; 0, 1, -3; (0 : ℝ), 0, 1] :=
  ⟨translate_mat_eq, translate_mat_eq 5 (-3)⟩

/-- Claim C6: multiplying `translate_mat x y` by the homogeneous column vector
`[px, py, 1]` yields exactly `[px + x, py + y, 1]`. -/
theorem translate_mat_apply_point (x y px py : ℝ) :
    (translate_mat x y).mulVec ![px, py, 1] = ![px + x, py + y, 1] := by
  funext i
  fin_cases i <;>
    simp [Matrix.mulVec, Matrix.dotProduct, Fin.sum_univ_three, translate_mat_eq]

/-- Claim C7: for every angle `θ`, the top-left 2×2 block of `rotate_mat θ` is
orthonormal — both columns have unit norm and they are mutually perpendicular — and
the bottom row is exactly `[0, 0, 1]`. -/
theorem rotate_mat_orthonormal (θ : ℝ) :
    rotate_mat θ 0 0 ^ 2 + rotate_mat θ 1 0 ^ 2 = 1 ∧
    rotate_mat θ 0 1 ^ 2 + rotate_mat θ 1 1 ^ 2 = 1 ∧
    rotate_mat θ 0 0 * rotate_mat θ 0 1 + rotate_mat θ 1 0 * rotate_mat θ 1 1 = 0 ∧
    rotate_mat θ 2 = ![(0 : ℝ), 0, 1] := by
  rw [rotate_mat_eq]
  refine ⟨?_, ?_, ?_, ?_⟩
  · simp [Real.cos_sq_add_sin_sq]
  · simp [Real.sin_sq_add_cos_sq]
  · simp
    ring
  · funext j
    fin_cases j <;> simp

/-- Claim C8: multiplying `rotate_mat 90` by the homogeneous point `[1, 0, 1]` yields
`[0, 1, 1]` (exactly, in the real-number model, hence a fortiori up to floating-point
rounding): rotation by a positive angle is counter-clockwise. -/
theorem rotate_mat_ninety_ccw :
    (rotate_mat 90).mulVec ![1, 0, 1] = ![0, 1, 1] := by
  have h : radians 90 = Real.pi / 2 := by
    unfold radians
    ring
  funext i
  fin_cases i <;>
    simp [Matrix.mulVec, Matrix.dotProduct, Fin.sum_univ_three, rotate_mat_eq, h]

/-- Claim C9: `rotate_mat 0` is the 3×3 identity matrix (exactly, in the real-number
model). -/
theorem rotate_mat_zero_identity :
    rotate_mat 0 = (1 : Matrix (Fin 3) (Fin 3) ℝ) := by
  have h : radians 0 = 0 := by
    unfold radians
    ring
  funext i j
  fin_cases i <;> fin_cases j <;>
    simp [rotate_mat_eq, h, Matrix.one_apply, Matrix.vecHead, Matrix.vecTail]

/-- Claim C10: `mat` accepts the full Python float grammar, not only plain decimals —
scientific notation such as "1e5" and the keywords "inf", "-inf", "nan" all convert
without `ParseError`, and the matrix entries hold the corresponding values
(100000, +∞, -∞, NaN). -/
theorem mat_accepts_float_grammar :
    pyFloat "1e5" = some (PFloat.finite 100000) ∧
    pyFloat "inf" = some PFloat.inf ∧
    pyFloat "-inf" = some PFloat.neginf ∧
    pyFloat "nan" = some PFloat.nan ∧
    mat "1e5 inf -inf nan" =
      Except.ok ([PFloat.finite 100000, PFloat.neginf], [PFloat.inf, PFloat.nan]) := by
  have hv : (1 : ℚ) * (10 : ℚ) ^ (5 : ℤ) = 100000 := by norm_num
  have h1 : pyFloat "1e5" = some (PFloat.finite ((1 : ℚ) * (10 : ℚ) ^ (5 : ℤ))) := rfl
  have h2 : mat "1e5 inf -inf nan" =
      Except.ok ([PFloat.finite ((1 : ℚ) * (10 : ℚ) ^ (5 : ℤ)), PFloat.neginf],
        [PFloat.inf, PFloat.nan]) := rfl
  rw [hv] at h1 h2
  exact ⟨h1, rfl, rfl, rfl, h2⟩

end Illuminata
